import Mathlib

/-!
Shallow embedding of `notebooks/opencv-basics.ipynb`.

The notebook defines two helper routines, `loadImage` (cell 3) and
`annotate` (cell 31), a byte-buffer decoding route (cells 17-21), and a
`predict` function (cell 34).  All pixel processing is delegated to the
external OpenCV library (`cv2`); the external calls are modelled here over
explicit pixel arrays, and the parts of the environment the repository does
not control (the file system, the image decoder, the YOLO model) are
passed in as an explicit `Ext` record of functions.
-/

namespace OpencvBasics

/-- Pixel of a decoded colour image: three unsigned 8-bit channel values,
as produced by `cv2.imread`/`cv2.imdecode` with `IMREAD_COLOR`. -/
abbrev Pix := Fin 256 × Fin 256 × Fin 256

/-- Image: the numpy array of pixels, row-major (height x width x channel).
Each element is an unsigned 8-bit triple by construction of `Pix`. -/
structure Image where
  rows : List (List Pix)
deriving DecidableEq, Repr

/-- Rectangularity of the pixel array: every row has the width of the first
row, i.e. the array really is height x width x channel. -/
def Image.WellFormed (img : Image) : Prop :=
  ∀ row ∈ img.rows, row.length = (img.rows.headD []).length

instance (img : Image) : Decidable img.WellFormed := by
  unfold Image.WellFormed; infer_instance

/-- numpy `shape[0]` of the array: the height (number of rows). -/
def shape0 (img : Image) : Nat := img.rows.length

/-- numpy `shape[1]` of the array: the width (length of a row). -/
def shape1 (img : Image) : Nat := (img.rows.headD []).length

/-- Bytes of a file, as read by `open(f, "rb")` / stored in a bytearray. -/
abbrev ByteSeq := List (Fin 256)

/-- Coordinate pair inside a darkflow detection record, e.g.
`prediction["topleft"]` with fields `"x"` and `"y"`. -/
structure Coord where
  x : Int
  y : Int
deriving DecidableEq, Repr

/-- Detection record returned by `yolo.return_predict`: class label,
confidence score, and bounding box (top-left, bottom-right). -/
structure Prediction where
  label : String
  confidence : ℚ
  topleft : Coord
  bottomright : Coord
deriving DecidableEq, Repr

/-- External environment the notebook runs against: the file system and the
two external decision procedures the repository does not own (the OpenCV
image decoder and the darkflow YOLO model).  `readFileBytes` returns `none`
for a missing or unreadable file; `decode` returns `none` for bytes that do
not parse as an image. -/
structure Ext where
  readFileBytes : String → Option ByteSeq
  decode : ByteSeq → Option Image
  returnPredict : Image → List Prediction

namespace cv2

/-- Flag argument of `cv2.imread` / `cv2.imdecode` used by the notebook. -/
inductive ImreadFlag where
  | IMREAD_COLOR
deriving DecidableEq, Repr

/-- Colour-conversion code used by the notebook. -/
inductive ColorCode where
  | COLOR_BGR2RGB
deriving DecidableEq, Repr

/-- Error raised by a `cv2` call; `cvtColorEmptySrc` is the assertion
failure `cv2.cvtColor` raises when handed the empty result (`None`) of a
failed `imread`/`imdecode`. -/
inductive CVErr where
  | cvtColorEmptySrc
deriving DecidableEq, Repr

/-- Swap the first and third channel of one pixel (BGR to RGB). -/
def swapRB (p : Pix) : Pix := (p.2.2, p.2.1, p.1)

/-- Model of `cv2.cvtColor` on a successfully decoded array:
`COLOR_BGR2RGB` swaps the first and third channel of every pixel. -/
def cvtColor (img : Image) (code : ColorCode) : Image :=
  match code with
  | .COLOR_BGR2RGB => ⟨img.rows.map (fun row => row.map swapRB)⟩

/-- Model of calling `cv2.cvtColor` on the *result* of `imread`/`imdecode`:
on `None` (a failed read/decode) the library raises its own assertion
error; on an array it converts and returns it. -/
def cvtColorE (src : Option Image) (code : ColorCode) : Except CVErr Image :=
  match src with
  | none => .error .cvtColorEmptySrc
  | some img => .ok (cvtColor img code)

/-- Model of `cv2.imdecode`: hand the flat byte array to the external
decoder; `none` models the `None` returned for malformed bytes. -/
def imdecode (env : Ext) (buf : ByteSeq) (_flag : ImreadFlag) : Option Image :=
  env.decode buf

/-- Model of `cv2.imread`: read the file's bytes and decode them (OpenCV
documents `imread` as equivalent to reading the file and `imdecode`); a
missing/unreadable file or a failed decode yields `None`. -/
def imread (env : Ext) (f : String) (flag : ImreadFlag) : Option Image :=
  (env.readFileBytes f).bind (fun b => imdecode env b flag)

/-- Does `cv2.rectangle` with corners `pt1`, `pt2` and the given thickness
paint the pixel at column `x`, row `y`?  Negative thickness fills the
rectangle; positive thickness paints a border band around the boundary;
thickness 0 paints nothing. -/
def paintsAt (pt1 pt2 : Int × Int) (thickness x y : Int) : Bool :=
  let x0 := min pt1.1 pt2.1
  let x1 := max pt1.1 pt2.1
  let y0 := min pt1.2 pt2.2
  let y1 := max pt1.2 pt2.2
  if thickness < 0 then
    decide (x0 ≤ x) && decide (x ≤ x1) && decide (y0 ≤ y) && decide (y ≤ y1)
  else
    let out := thickness / 2
    let inn := thickness - out
    (decide (x0 - out ≤ x) && decide (x ≤ x1 + out) &&
     decide (y0 - out ≤ y) && decide (y ≤ y1 + out)) &&
    !(decide (x0 + inn ≤ x) && decide (x ≤ x1 - inn) &&
      decide (y0 + inn ≤ y) && decide (y ≤ y1 - inn))

/-- Model of `cv2.rectangle`: recolour, in the pixel array, exactly the
pixels of the rectangle's border (or interior, for negative thickness) to
`color`, leaving every other pixel and the array's shape untouched.  This
is the value computed by the library's in-place mutation. -/
def rectangle (img : Image) (pt1 pt2 : Int × Int) (color : Pix)
    (thickness : Int) : Image :=
  ⟨img.rows.mapIdx (fun y row =>
    row.mapIdx (fun x p =>
      if paintsAt pt1 pt2 thickness (Int.ofNat x) (Int.ofNat y) then color
      else p))⟩

end cv2

/-- Model of `np.copy`: a fresh array with the same pixel contents.  As a
value it is the identity; the aliasing behaviour (fresh allocation) is
modelled separately on the heap below. -/
def npCopy (img : Image) : Image := ⟨img.rows⟩

/-- Embedding of cell 3's helper:
`loadImage(f) = cv2.cvtColor(cv2.imread(f, cv2.IMREAD_COLOR), cv2.COLOR_BGR2RGB)`. -/
def loadImage (env : Ext) (f : String) : Except cv2.CVErr Image :=
  cv2.cvtColorE (cv2.imread env f .IMREAD_COLOR) .COLOR_BGR2RGB

/-- The white colour tuple `(255, 255, 255)` used in `annotate`. -/
def white : Pix := (255, 255, 255)

/-- Embedding of cell 31's helper `annotate(img, predictions, thickness=None)`:
copy the image, default the thickness to `int(max(img.shape[0], img.shape[1]) / 100)`
when it was not supplied, then draw a white rectangle for each prediction's
bounding box. -/
def annotate (img : Image) (predictions : List Prediction)
    (thickness : Option Int := none) : Image :=
  let annotated_img := npCopy img
  let thickness : Int :=
    match thickness with
    | none => Int.ofNat (Nat.max (shape0 img) (shape1 img) / 100)
    | some t => t
  predictions.foldl (fun a prediction =>
    let tl := prediction.topleft
    let topleft := (tl.x, tl.y)
    let br := prediction.bottomright
    let bottomright := (br.x, br.y)
    cv2.rectangle a topleft bottomright white thickness) annotated_img

/-- Thickness actually used by `annotate`: the argument when supplied, else
the default `int(max(img.shape[0], img.shape[1]) / 100)` computed by the
`if thickness is None` branch. -/
def resolveThickness (img : Image) (thickness : Option Int) : Int :=
  match thickness with
  | none => Int.ofNat (Nat.max (shape0 img) (shape1 img) / 100)
  | some t => t

/-- The byte-buffer route of cells 17-21: bytes of the file (via `open`,
`bytearray`, `np.asarray`) are decoded with `cv2.imdecode(..., IMREAD_COLOR)`
and converted BGR to RGB with `cv2.cvtColor`. -/
def byteRoute (env : Ext) (buf : ByteSeq) : Except cv2.CVErr Image :=
  cv2.cvtColorE (cv2.imdecode env buf .IMREAD_COLOR) .COLOR_BGR2RGB

/-- Embedding of cell 34's `predict(imageFile)`: load the image from
`"/data/images/" + imageFile`, run the model, annotate with thickness 5
(for display), and return the predictions. -/
def predict (env : Ext) (imageFile : String) :
    Except cv2.CVErr (List Prediction) := do
  let image ← loadImage env ("/data/images/" ++ imageFile)
  let predictions := env.returnPredict image
  let _displayed := annotate image predictions (some 5)
  return predictions

/-! ### Heap model of array aliasing

numpy arrays are mutable objects; `np.copy` allocates a fresh array and
`cv2.rectangle` mutates its argument in place.  To state that `annotate`
never touches the caller's array we model the object store explicitly: a
heap maps references (allocation order) to array values. -/

/-- Store of allocated numpy arrays: `next` is the next fresh reference,
`mem r` the array currently held at reference `r`. -/
structure Heap where
  next : Nat
  mem : Nat → Image

/-- Read the array at reference `r`. -/
def Heap.get (h : Heap) (r : Nat) : Image := h.mem r

/-- Overwrite the array at reference `r` in place. -/
def Heap.set (h : Heap) (r : Nat) (a : Image) : Heap :=
  ⟨h.next, fun s => if s = r then a else h.mem s⟩

/-- Allocate a fresh array holding `a`, returning the new heap and the
fresh reference. -/
def Heap.alloc (h : Heap) (a : Image) : Heap × Nat :=
  (⟨h.next + 1, fun s => if s = h.next then a else h.mem s⟩, h.next)

/-- Heap-level `np.copy`: allocate a fresh array with the contents of the
array at `r`. -/
def npCopyH (h : Heap) (r : Nat) : Heap × Nat :=
  h.alloc (h.get r)

/-- Heap-level `cv2.rectangle`: mutate the array at `r` in place. -/
def rectangleH (h : Heap) (r : Nat) (pt1 pt2 : Int × Int) (color : Pix)
    (thickness : Int) : Heap :=
  h.set r (cv2.rectangle (h.get r) pt1 pt2 color thickness)

/-- Heap-level embedding of `annotate`, following cell 31 line by line:
`annotated_img = np.copy(img)` allocates; the default thickness reads
`img.shape` of the *argument* array; each loop iteration mutates the copy
in place with `cv2.rectangle`; the copy's reference is returned. -/
def annotateH (h : Heap) (img : Nat) (predictions : List Prediction)
    (thickness : Option Int := none) : Heap × Nat :=
  let (h1, annotated_img) := npCopyH h img
  let thickness : Int :=
    match thickness with
    | none =>
        Int.ofNat (Nat.max (shape0 (h1.get img)) (shape1 (h1.get img)) / 100)
    | some t => t
  (predictions.foldl (fun hh prediction =>
    let tl := prediction.topleft
    let topleft := (tl.x, tl.y)
    let br := prediction.bottomright
    let bottomright := (br.x, br.y)
    rectangleH hh annotated_img topleft bottomright white thickness) h1,
   annotated_img)

/-! ### Call-trace model of the drawing loop -/

/-- Arguments of one `cv2.rectangle` call issued by `annotate`. -/
structure RectCall where
  pt1 : Int × Int
  pt2 : Int × Int
  color : Pix
  thickness : Int
deriving DecidableEq, Repr

/-- The sequence of `cv2.rectangle` calls `annotate img predictions thickness`
issues: one per prediction, on that prediction's bounding box, in white,
with the resolved thickness. -/
def annotateCalls (img : Image) (predictions : List Prediction)
    (thickness : Option Int := none) : List RectCall :=
  predictions.map (fun p =>
    ⟨(p.topleft.x, p.topleft.y), (p.bottomright.x, p.bottomright.y),
     white, resolveThickness img thickness⟩)

/-- Replay one recorded `cv2.rectangle` call on an array value. -/
def applyCall (a : Image) (c : RectCall) : Image :=
  cv2.rectangle a c.pt1 c.pt2 c.color c.thickness

/-! ### File-system reads of the notebook

Paths at which the notebook reads, in cell order: cell 3 `loadImage("otto.jpg")`,
cell 17 `open("otto.jpg", "rb")`, cell 27 `TFNet` loading `"cfg/yolo.cfg"`
and `"/data/yolo.weights"`, cell 34 `listdir("/data/images/")` and, inside
`predict`, `loadImage("/data/images/" + imageFile)` for each image file
name chosen at runtime through the `interact` widget. -/

/-- Path read by `predict` for a runtime-chosen file name. -/
def predictReadPath (imageFile : String) : String :=
  "/data/images/" ++ imageFile

/-- The path literals hard-coded in the notebook's cells. -/
def hardCodedPaths : List String :=
  ["otto.jpg", "cfg/yolo.cfg", "/data/yolo.weights", "/data/images/"]

/-- Every path the notebook reads during a session in which the runtime
file names `chosen` are selected in the `interact` widget, in cell order. -/
def notebookReadPaths (chosen : List String) : List String :=
  ["otto.jpg", "otto.jpg", "cfg/yolo.cfg", "/data/yolo.weights",
   "/data/images/"] ++ chosen.map predictReadPath

/-! ### Concrete sample inputs, used to instantiate the theorems below -/

/-- A concrete 2 x 3 pixel array. -/
def sampleImage : Image :=
  ⟨[[(10, 20, 30), (40, 50, 60), (70, 80, 90)],
    [(1, 2, 3), (4, 5, 6), (7, 8, 9)]]⟩

/-- A concrete detection record. -/
def samplePred : Prediction :=
  ⟨"dog", 85 / 100, ⟨0, 0⟩, ⟨2, 1⟩⟩

/-- The same bounding box as `samplePred` with a different label and
confidence. -/
def samplePredRelabeled : Prediction :=
  ⟨"sofa", 17 / 100, ⟨0, 0⟩, ⟨2, 1⟩⟩

/-- An environment whose file system has no readable files. -/
def emptyEnv : Ext :=
  ⟨fun _ => none, fun _ => none, fun _ => []⟩

/-- An environment with one readable file `"otto.jpg"` whose bytes decode
to `sampleImage`. -/
def sampleEnv : Ext :=
  ⟨fun f => if f = "otto.jpg" then some [255, 216] else none,
   fun b => if b = [255, 216] then some sampleImage else none,
   fun _ => [samplePred]⟩

/-- A one-array heap holding `sampleImage` at reference 0. -/
def sampleHeap : Heap :=
  ⟨1, fun _ => sampleImage⟩

/-- Row-length profile of the pixel array: the length of each row, in
order.  Two images with the same profile have the same height x width
shape (and, `Pix` being fixed, the same element type). -/
def rowLengths (img : Image) : List Nat :=
  img.rows.map List.length

/-! ## Helper lemmas -/

/-- Resolving the thickness once and folding the drawing step is exactly
what `annotate` computes. -/
lemma annotate_eq_foldl (img : Image) (ps : List Prediction) (t : Option Int) :
    annotate img ps t =
      ps.foldl (fun a p =>
        cv2.rectangle a (p.topleft.x, p.topleft.y)
          (p.bottomright.x, p.bottomright.y) white (resolveThickness img t))
        (npCopy img) := by
  cases t <;> rfl

/-- The drawing loop of `annotate` replays exactly its recorded
`cv2.rectangle` call trace. -/
lemma annotate_eq_foldl_calls (img : Image) (ps : List Prediction)
    (t : Option Int) :
    annotate img ps t = (annotateCalls img ps t).foldl applyCall (npCopy img) := by
  rw [annotateCalls, List.foldl_map, annotate_eq_foldl]
  rfl

/-- `cv2.rectangle` recolours pixels in place: every row keeps its length. -/
lemma rowLengths_rectangle (a : Image) (pt1 pt2 : Int × Int) (c : Pix)
    (t : Int) : rowLengths (cv2.rectangle a pt1 pt2 c t) = rowLengths a := by
  apply List.ext_getElem
  · simp [rowLengths, cv2.rectangle]
  · intro i h1 h2
    simp [rowLengths, cv2.rectangle, List.get_mapIdx]

/-- The height is the length of the row-length profile. -/
lemma shape0_eq (img : Image) : shape0 img = (rowLengths img).length := by
  simp [shape0, rowLengths]

/-- The width is the head of the row-length profile. -/
lemma shape1_eq (img : Image) : shape1 img = (rowLengths img).headD 0 := by
  cases h : img.rows with
  | nil => simp [shape1, rowLengths, h]
  | cons r rs => simp [shape1, rowLengths, h]

/-- Rectangularity is a property of the row-length profile alone. -/
lemma wellFormed_iff (img : Image) :
    img.WellFormed ↔ ∀ n ∈ rowLengths img, n = (rowLengths img).headD 0 := by
  rw [← shape1_eq]
  unfold Image.WellFormed rowLengths
  constructor
  · rintro h n hn
    obtain ⟨row, hrow, rfl⟩ := List.mem_map.mp hn
    exact h row hrow
  · intro h row hrow
    exact h row.length (List.mem_map_of_mem _ hrow)

/-- `cv2.cvtColor` converts pixels in place: every row keeps its length. -/
lemma rowLengths_cvtColor (a : Image) (code : cv2.ColorCode) :
    rowLengths (cv2.cvtColor a code) = rowLengths a := by
  cases code
  simp [rowLengths, cv2.cvtColor, List.map_map, Function.comp]

/-- The drawing fold only looks at the bounding-box projection of each
prediction. -/
lemma foldl_rect_congr (t' : Int) : ∀ (ps qs : List Prediction) (a : Image),
    ps.map (fun p => (p.topleft, p.bottomright)) =
      qs.map (fun p => (p.topleft, p.bottomright)) →
    ps.foldl (fun a p =>
      cv2.rectangle a (p.topleft.x, p.topleft.y)
        (p.bottomright.x, p.bottomright.y) white t') a =
    qs.foldl (fun a p =>
      cv2.rectangle a (p.topleft.x, p.topleft.y)
        (p.bottomright.x, p.bottomright.y) white t') a := by
  intro ps
  induction ps with
  | nil =>
      intro qs a h
      rw [List.map_nil] at h
      rw [List.map_eq_nil_iff.mp h.symm]
  | cons p ps ih =>
      intro qs a h
      cases qs with
      | nil => simp at h
      | cons q qs =>
          simp only [List.map_cons, List.cons.injEq] at h
          obtain ⟨hpq, hrest⟩ := h
          have h1 : p.topleft = q.topleft := congrArg Prod.fst hpq
          have h2 : p.bottomright = q.bottomright := congrArg Prod.snd hpq
          rw [List.foldl_cons, List.foldl_cons, h1, h2]
          exact ih qs _ hrest

/-- Folding the drawing step over any prediction list keeps the row-length
profile of the accumulator. -/
lemma rowLengths_foldl_rect (ps : List Prediction) (a : Image) (t' : Int) :
    rowLengths (ps.foldl (fun a p =>
      cv2.rectangle a (p.topleft.x, p.topleft.y)
        (p.bottomright.x, p.bottomright.y) white t') a) = rowLengths a := by
  induction ps generalizing a with
  | nil => rfl
  | cons p ps ih => rw [List.foldl_cons, ih, rowLengths_rectangle]

/-- Reading a reference just written. -/
lemma Heap.get_set_self (h : Heap) (r : Nat) (a : Image) :
    (h.set r a).get r = a := by
  simp [Heap.get, Heap.set]

/-- Writing one reference leaves every other reference unchanged. -/
lemma Heap.get_set_ne (h : Heap) (r s : Nat) (a : Image) (hne : s ≠ r) :
    (h.set r a).get s = h.get s := by
  simp [Heap.get, Heap.set, hne]

/-- `annotateH` is the in-place drawing fold on the freshly allocated copy,
with the thickness resolved against the argument array. -/
lemma annotateH_eq (h : Heap) (r : Nat) (ps : List Prediction)
    (t : Option Int) :
    annotateH h r ps t =
      (ps.foldl (fun hh p =>
        rectangleH hh h.next (p.topleft.x, p.topleft.y)
          (p.bottomright.x, p.bottomright.y) white
          (resolveThickness (((npCopyH h r).1).get r) t)) ((npCopyH h r).1),
       h.next) := by
  cases t <;> rfl

/-- The in-place drawing fold never touches a reference other than the one
it draws on. -/
lemma foldl_rectH_get_ne (ps : List Prediction) (ar r : Nat) (t' : Int)
    (hh : Heap) (hne : r ≠ ar) :
    (ps.foldl (fun hh p =>
      rectangleH hh ar (p.topleft.x, p.topleft.y)
        (p.bottomright.x, p.bottomright.y) white t') hh).get r = hh.get r := by
  induction ps generalizing hh with
  | nil => rfl
  | cons p ps ih =>
      rw [List.foldl_cons, ih]
      exact Heap.get_set_ne _ _ _ _ hne

/-- On the reference it draws on, the in-place drawing fold computes the
pure drawing fold of the array it started from. -/
lemma foldl_rectH_get_self (ps : List Prediction) (ar : Nat) (t' : Int)
    (hh : Heap) :
    (ps.foldl (fun hh p =>
      rectangleH hh ar (p.topleft.x, p.topleft.y)
        (p.bottomright.x, p.bottomright.y) white t') hh).get ar =
    ps.foldl (fun a p =>
      cv2.rectangle a (p.topleft.x, p.topleft.y)
        (p.bottomright.x, p.bottomright.y) white t') (hh.get ar) := by
  induction ps generalizing hh with
  | nil => rfl
  | cons p ps ih =>
      rw [List.foldl_cons, List.foldl_cons, ih]
      congr 1
      exact Heap.get_set_self _ _ _

/-- The fresh copy holds the contents of the copied array. -/
lemma npCopyH_get_fresh (h : Heap) (r : Nat) :
    ((npCopyH h r).1).get h.next = h.get r := by
  simp [npCopyH, Heap.alloc, Heap.get]

/-- Allocating the copy does not disturb any existing reference. -/
lemma npCopyH_get_old (h : Heap) (r s : Nat) (hs : s ≠ h.next) :
    ((npCopyH h r).1).get s = h.get s := by
  simp [npCopyH, Heap.alloc, Heap.get, hs]

end OpencvBasics

namespace OpencvBasics

/-! ## Claim theorems -/

/-- C8: `annotate(img, [])` with the empty prediction list returns an array
pixel-for-pixel equal to `img`: the drawing loop never runs and the copy
has the contents of `img`, whatever the thickness argument was. -/
theorem annotate_empty_is_identity (img : Image) (t : Option Int) :
    annotate img [] t = img := by
  cases t <;> rfl

/-- C9: for every image and prediction list, the array `annotate` returns
has the same shape as the input — the same height, the same width, and the
same length for every row — and the same element type (`Pix`, the unsigned
8-bit triple, fixed by the return type of `annotate`): drawing rectangles
never resizes the array or changes its dtype. -/
theorem annotate_preserves_shape_dtype (img : Image) (ps : List Prediction)
    (t : Option Int) :
    rowLengths (annotate img ps t) = rowLengths img ∧
    shape0 (annotate img ps t) = shape0 img ∧
    shape1 (annotate img ps t) = shape1 img := by
  have key : rowLengths (annotate img ps t) = rowLengths img := by
    rw [annotate_eq_foldl, rowLengths_foldl_rect]
    rfl
  exact ⟨key, by rw [shape0_eq, shape0_eq, key], by rw [shape1_eq, shape1_eq, key]⟩

/-- C2: each helper is extensionally an unconditional composition of the
modelled library calls.  `loadImage` is `cvtColor` after `imread`, for every
input.  `annotate` is `np.copy` followed by a fold of `cv2.rectangle` over
the predictions — one fixed composition for every input; the only value the
repository computes itself is the resolved thickness argument
(`resolveThickness`, the defaulting of an omitted parameter). -/
theorem helpers_delegate_to_library :
    (∀ (env : Ext) (f : String),
      loadImage env f =
        cv2.cvtColorE (cv2.imread env f .IMREAD_COLOR) .COLOR_BGR2RGB) ∧
    (∀ (img : Image) (ps : List Prediction) (t : Option Int),
      annotate img ps t =
        ps.foldl (fun a p =>
          cv2.rectangle a (p.topleft.x, p.topleft.y)
            (p.bottomright.x, p.bottomright.y) white (resolveThickness img t))
          (npCopy img)) :=
  ⟨fun _ _ => rfl, fun img ps t => annotate_eq_foldl img ps t⟩

/-- C3: `loadImage f` is exactly
`cvtColor(imread(f, IMREAD_COLOR), COLOR_BGR2RGB)`; whenever the decoder
yields a (rectangular) pixel array, the result is a rectangular height x
width x channel array of unsigned 8-bit triples (the element type `Pix`)
with the decoded array's dimensions. -/
theorem loadImage_decode_then_convert (env : Ext) (f : String) :
    loadImage env f =
      cv2.cvtColorE (cv2.imread env f .IMREAD_COLOR) .COLOR_BGR2RGB ∧
    ∀ a, cv2.imread env f .IMREAD_COLOR = some a → a.WellFormed →
      ∃ b, loadImage env f = Except.ok b ∧ b.WellFormed ∧
        shape0 b = shape0 a ∧ shape1 b = shape1 a := by
  refine ⟨rfl, ?_⟩
  intro a ha hwf
  have hrl : rowLengths (cv2.cvtColor a .COLOR_BGR2RGB) = rowLengths a :=
    rowLengths_cvtColor a _
  refine ⟨cv2.cvtColor a .COLOR_BGR2RGB, ?_, ?_, ?_, ?_⟩
  · rw [loadImage, ha]
    rfl
  · rw [wellFormed_iff, hrl]
    exact (wellFormed_iff a).mp hwf
  · rw [shape0_eq, shape0_eq, hrl]
  · rw [shape1_eq, shape1_eq, hrl]

/-- Witness for C3 at the concrete environment `sampleEnv` and the file
`"otto.jpg"`, whose bytes decode to `sampleImage`. -/
theorem loadImage_decode_then_convert_check :
    ∃ b, loadImage sampleEnv "otto.jpg" = Except.ok b ∧ b.WellFormed ∧
      shape0 b = shape0 sampleImage ∧ shape1 b = shape1 sampleImage :=
  (loadImage_decode_then_convert sampleEnv "otto.jpg").2 sampleImage
    (by decide) (by decide)

/-- C4: `annotate` reads only the bounding-box fields of each detection
record: two prediction lists agreeing on every record's `topleft` and
`bottomright` produce the same output array, whatever the labels and
confidence scores. -/
theorem annotate_ignores_label_confidence (img : Image) (t : Option Int)
    (ps qs : List Prediction)
    (h : ps.map (fun p => (p.topleft, p.bottomright)) =
      qs.map (fun p => (p.topleft, p.bottomright))) :
    annotate img ps t = annotate img qs t := by
  rw [annotate_eq_foldl, annotate_eq_foldl]
  exact foldl_rect_congr _ ps qs _ h

/-- Witness for C4: `samplePred` and `samplePredRelabeled` share a bounding
box but differ in label and confidence, and annotation agrees on them. -/
theorem annotate_ignores_label_confidence_check :
    samplePred.label ≠ samplePredRelabeled.label ∧
    samplePred.confidence ≠ samplePredRelabeled.confidence ∧
    annotate sampleImage [samplePred] none =
      annotate sampleImage [samplePredRelabeled] none :=
  ⟨by decide, by norm_num [samplePred, samplePredRelabeled],
    annotate_ignores_label_confidence sampleImage none [samplePred]
      [samplePredRelabeled] (by decide)⟩

/-- C5: failures pass through untouched.  A missing/unreadable file or
malformed bytes make `imread` return the empty result, and `loadImage`
surfaces exactly the error the library's own `cvtColor` raises on it —
never a return value; `predict` propagates the same error unchanged. -/
theorem failures_propagate_unhandled (env : Ext) :
    (∀ f, env.readFileBytes f = none →
      loadImage env f = Except.error cv2.CVErr.cvtColorEmptySrc) ∧
    (∀ f b, env.readFileBytes f = some b → env.decode b = none →
      loadImage env f = Except.error cv2.CVErr.cvtColorEmptySrc) ∧
    (∀ name, env.readFileBytes ("/data/images/" ++ name) = none →
      predict env name = Except.error cv2.CVErr.cvtColorEmptySrc) := by
  refine ⟨?_, ?_, ?_⟩
  · intro f hf
    simp [loadImage, cv2.imread, hf, cv2.cvtColorE]
  · intro f b hf hb
    simp [loadImage, cv2.imread, cv2.imdecode, hf, hb, cv2.cvtColorE]
  · intro name hn
    have h1 : loadImage env ("/data/images/" ++ name) =
        Except.error cv2.CVErr.cvtColorEmptySrc := by
      simp [loadImage, cv2.imread, hn, cv2.cvtColorE]
    simp [predict, h1]

/-- Witness for C5 at the environment with no readable files. -/
theorem failures_propagate_unhandled_check :
    loadImage emptyEnv "otto.jpg" = Except.error cv2.CVErr.cvtColorEmptySrc ∧
    predict emptyEnv "dog.jpg" = Except.error cv2.CVErr.cvtColorEmptySrc :=
  ⟨(failures_propagate_unhandled emptyEnv).1 "otto.jpg" rfl,
   (failures_propagate_unhandled emptyEnv).2.2 "dog.jpg" rfl⟩

/-- C7: the byte-buffer route (read the file's bytes, `imdecode` them with
`IMREAD_COLOR`, convert BGR to RGB) yields the same result as `loadImage`
on the file's path. -/
theorem byte_route_matches_file_route (env : Ext) (f : String) (b : ByteSeq)
    (hb : env.readFileBytes f = some b) :
    byteRoute env b = loadImage env f := by
  rw [byteRoute, loadImage, cv2.imread, hb]
  rfl

/-- Witness for C7 at `sampleEnv`, whose file `"otto.jpg"` holds the bytes
`[255, 216]`. -/
theorem byte_route_matches_file_route_check :
    byteRoute sampleEnv [255, 216] = loadImage sampleEnv "otto.jpg" :=
  byte_route_matches_file_route sampleEnv "otto.jpg" [255, 216] (by decide)

/-- C1: on the heap model, `annotate` never touches the caller's array: for
every allocated reference, the array held there is the same before and
after the call, the returned reference is a different one (the fresh
`np.copy` allocation), and it holds the annotated pixels. -/
theorem annotate_leaves_input_unchanged (h : Heap) (r : Nat)
    (ps : List Prediction) (t : Option Int) (hr : r < h.next) :
    (annotateH h r ps t).1.get r = h.get r ∧
    (annotateH h r ps t).2 ≠ r ∧
    (annotateH h r ps t).1.get (annotateH h r ps t).2 =
      annotate (h.get r) ps t := by
  have hne : r ≠ h.next := Nat.ne_of_lt hr
  have hget : ((npCopyH h r).1).get r = h.get r := npCopyH_get_old h r r hne
  rw [annotateH_eq]
  refine ⟨?_, ?_, ?_⟩
  · rw [foldl_rectH_get_ne _ _ _ _ _ hne, hget]
  · exact fun c => hne c.symm
  · rw [foldl_rectH_get_self, npCopyH_get_fresh, hget,
      annotate_eq_foldl (h.get r) ps t]
    rfl

/-- Witness for C1 at the one-array heap `sampleHeap`. -/
theorem annotate_leaves_input_unchanged_check :
    0 < sampleHeap.next ∧
    (annotateH sampleHeap 0 [samplePred] none).1.get 0 = sampleHeap.get 0 ∧
    (annotateH sampleHeap 0 [samplePred] none).2 ≠ 0 ∧
    (annotateH sampleHeap 0 [samplePred] none).1.get
        (annotateH sampleHeap 0 [samplePred] none).2 =
      annotate (sampleHeap.get 0) [samplePred] none :=
  ⟨by decide,
    annotate_leaves_input_unchanged sampleHeap 0 [samplePred] none (by decide)⟩

/-- C6 fails as stated: `predict` reads at a path computed from runtime
data.  The path `"/data/images/" + imageFile` read for a runtime-chosen
file name is among the notebook's reads, is none of the path literals
hard-coded in the cells, and varies with the runtime choice. -/
theorem read_path_computed_at_runtime :
    predictReadPath "example.jpg" ∈ notebookReadPaths ["example.jpg"] ∧
    predictReadPath "example.jpg" ∉ hardCodedPaths ∧
    predictReadPath "a.jpg" ≠ predictReadPath "b.jpg" := by
  refine ⟨?_, ?_, ?_⟩ <;> decide

/-- C6 amended: every file-system read of the notebook uses either one of
the hard-coded path literals (the image `"otto.jpg"`, the model config
`"cfg/yolo.cfg"`, the weights `"/data/yolo.weights"`, the images directory
`"/data/images/"`) or, in `predict`, the path `"/data/images/" + f` for a
file name `f` chosen at runtime. -/
theorem notebook_reads_hardcoded_or_images_dir (chosen : List String)
    (p : String) (hp : p ∈ notebookReadPaths chosen) :
    p ∈ hardCodedPaths ∨ ∃ f ∈ chosen, p = predictReadPath f := by
  rw [notebookReadPaths] at hp
  rcases List.mem_append.mp hp with h | h
  · left
    fin_cases h <;> decide
  · right
    obtain ⟨f, hf, rfl⟩ := List.mem_map.mp h
    exact ⟨f, hf, rfl⟩

/-- Witness for the amended C6: the first read of the session. -/
theorem notebook_reads_hardcoded_or_images_dir_check :
    "otto.jpg" ∈ hardCodedPaths ∨
      ∃ f ∈ ["example.jpg"], "otto.jpg" = predictReadPath f :=
  notebook_reads_hardcoded_or_images_dir ["example.jpg"] "otto.jpg" (by decide)

/-- C10: with the thickness argument omitted, `annotate` resolves it to
`int(max(img.shape[0], img.shape[1]) / 100)` and passes that value to every
`cv2.rectangle` call it issues (the recorded calls, which the drawing loop
replays exactly); when the larger dimension is below 100 pixels the value
passed is 0. -/
theorem default_thickness_value (img : Image) (ps : List Prediction) :
    resolveThickness img none =
      Int.ofNat (Nat.max (shape0 img) (shape1 img) / 100) ∧
    annotate img ps none =
      (annotateCalls img ps none).foldl applyCall (npCopy img) ∧
    (∀ c ∈ annotateCalls img ps none,
      c.thickness = Int.ofNat (Nat.max (shape0 img) (shape1 img) / 100)) ∧
    (Nat.max (shape0 img) (shape1 img) < 100 →
      ∀ c ∈ annotateCalls img ps none, c.thickness = 0) := by
  refine ⟨rfl, annotate_eq_foldl_calls img ps none, ?_, ?_⟩
  · intro c hc
    obtain ⟨p, hp, rfl⟩ := List.mem_map.mp hc
    rfl
  · intro hlt c hc
    obtain ⟨p, hp, rfl⟩ := List.mem_map.mp hc
    show resolveThickness img none = 0
    rw [resolveThickness]
    simp [Nat.div_eq_of_lt hlt]

/-- Witness for C10: `sampleImage` is 2 x 3, so the default thickness 0 is
passed to the drawing call. -/
theorem default_thickness_value_check :
    Nat.max (shape0 sampleImage) (shape1 sampleImage) < 100 ∧
    ∀ c ∈ annotateCalls sampleImage [samplePred] none, c.thickness = 0 :=
  ⟨by decide,
    (default_thickness_value sampleImage [samplePred]).2.2.2 (by decide)⟩

end OpencvBasics
